import Mathlib

/-!
Shallow embedding of the performance simulator in `src/api/mock_api.py`
(module-level constants `SAMPLE_SHIPS`, `CONDITIONING_PARAMS`, and the
functions `query_mock_api` and `calculate_environmental_effects`).

Modelling conventions:
* Python floats are modelled as real numbers (`ℝ`); `x ** 0.8` is modelled
  by `Real.rpow`, which agrees with Python's `**` for nonnegative bases.
  Python returns a complex number for a negative base with non-integral
  exponent; that behaviour is modelled separately by `pyFloatPow` and
  `calculate_environmental_effects_pyPow` below.
* Python `round(x, n)` is modelled by `round5`/`round2` (round to nearest);
  Python rounds exact half-ties to even while `round` here rounds them up —
  the two differ only on exact ties, which no property below depends on.
* The `conditioning_params` dict is modelled as a record of the ten
  recognised keys (the caller contract admits only those keys); a caller
  override is a record of `Option` fields, `none` marking an absent key, and
  `dict.update` becomes the field-wise `Option.getD` merge.
* The process-wide random source is modelled by a `Jitter` record giving,
  for each sample index, the uniform draw used for each metric at that
  index; admissible draws lie in the source's per-metric intervals.
* The `description` string of a limit-violation dict (pure formatting of
  the same `error_code`/limit data) is not modelled; no property reads it.
-/

noncomputable section

namespace MockApi

/-- One entry of the `SAMPLE_SHIPS` catalog. -/
structure Vessel where
  name : String
  imo_number : ℤ
  type : String
  country : String
  build_year : ℤ
  shipyard : String
  dwt : ℝ
  beam : ℝ
  loa : ℝ
  mcr : ℝ
  max_rpm : ℝ
  uuid : String

/-- The single catalog entry of `SAMPLE_SHIPS`. -/
def demoVessel : Vessel :=
  ⟨"Demo Vessel", 9999999, "Tanker", "SC", 2015, "Toqua Shipyard",
   220000.0, 55.0, 300.0, 21900.0, 60.0, "eycrYbrzJNsJecGqKraUCn"⟩

/-- Module-level ship catalog `SAMPLE_SHIPS`. -/
def SAMPLE_SHIPS : List Vessel := [demoVessel]

/-- A complete conditioning-parameter assignment (the ten recognised keys). -/
structure CondParams where
  wind_speed : ℝ
  wind_direction : ℝ
  wave_height : ℝ
  wave_direction : ℝ
  current_speed : ℝ
  current_direction : ℝ
  mean_draft : ℝ
  trim : ℝ
  ship_heading : ℝ
  fuel_specific_energy : ℝ

/-- Module-level default dict `CONDITIONING_PARAMS`. -/
def CONDITIONING_PARAMS : CondParams :=
  ⟨6, 180, 2, 90, 0.5, 0, 20, -1, 0, 41.5⟩

/-- A caller-supplied partial conditioning-parameter dict: `none` fields are
absent keys. -/
structure CondOverride where
  wind_speed : Option ℝ
  wind_direction : Option ℝ
  wave_height : Option ℝ
  wave_direction : Option ℝ
  current_speed : Option ℝ
  current_direction : Option ℝ
  mean_draft : Option ℝ
  trim : Option ℝ
  ship_heading : Option ℝ
  fuel_specific_energy : Option ℝ

/-- The parameter-resolution step of `query_mock_api` (lines 59–66):
`None` gives a copy of the defaults, otherwise the caller's keys are laid
over a copy of the defaults (`params.update(conditioning_params)`). -/
def resolveConditioningParams : Option CondOverride → CondParams
  | none => CONDITIONING_PARAMS
  | some o =>
    ⟨o.wind_speed.getD CONDITIONING_PARAMS.wind_speed,
     o.wind_direction.getD CONDITIONING_PARAMS.wind_direction,
     o.wave_height.getD CONDITIONING_PARAMS.wave_height,
     o.wave_direction.getD CONDITIONING_PARAMS.wave_direction,
     o.current_speed.getD CONDITIONING_PARAMS.current_speed,
     o.current_direction.getD CONDITIONING_PARAMS.current_direction,
     o.mean_draft.getD CONDITIONING_PARAMS.mean_draft,
     o.trim.getD CONDITIONING_PARAMS.trim,
     o.ship_heading.getD CONDITIONING_PARAMS.ship_heading,
     o.fuel_specific_energy.getD CONDITIONING_PARAMS.fuel_specific_energy⟩

/-- The five factors returned by `calculate_environmental_effects`. -/
structure EnvFactors where
  sog_factor : ℝ
  power_factor : ℝ
  fuel_factor : ℝ
  emission_factor : ℝ
  rpm_factor : ℝ

/-- `relative_wind_angle` (lines 266–268): absolute difference, folded. -/
def relative_wind_angle (cp : CondParams) : ℝ :=
  let a := |cp.wind_direction - cp.ship_heading|
  if a > 180 then 360 - a else a

/-- `wind_factor` (lines 271–281): start at 1.0, add the headwind term when
the folded angle is below 90, subtract the tailwind term when it is above
270 (the source's `elif`). -/
def wind_factor (cp : CondParams) : ℝ :=
  if relative_wind_angle cp < 90 then
    1.0 + cp.wind_speed * 0.02 * (relative_wind_angle cp / 90)
  else if relative_wind_angle cp > 270 then
    1.0 - cp.wind_speed * 0.01 * ((360 - relative_wind_angle cp) / 90)
  else 1.0

/-- `wave_factor` (line 285). -/
def wave_factor (cp : CondParams) : ℝ := 1.0 + cp.wave_height * 0.03

/-- `relative_current_angle` (lines 292–294). -/
def relative_current_angle (cp : CondParams) : ℝ :=
  let a := |cp.current_direction - cp.ship_heading|
  if a > 180 then 360 - a else a

/-- `current_sog_factor` (lines 297–303). -/
def current_sog_factor (cp : CondParams) : ℝ :=
  if relative_current_angle cp < 90 then
    1.0 + cp.current_speed * 0.1 * (relative_current_angle cp / 90)
  else if relative_current_angle cp > 270 then
    1.0 - cp.current_speed * 0.1 * ((360 - relative_current_angle cp) / 90)
  else 1.0

/-- `draft_factor` (lines 307–309). -/
def draft_factor (cp : CondParams) : ℝ := 1.0 + (cp.mean_draft - 20) * 0.01

/-- `trim_factor` (line 313). -/
def trim_factor (cp : CondParams) : ℝ := 1.0 + |cp.trim| * 0.005

/-- `power_factor` (line 316). -/
def power_factor (cp : CondParams) : ℝ :=
  wind_factor cp * wave_factor cp * draft_factor cp * trim_factor cp

/-- `calculate_environmental_effects` (lines 257–329), with
`rpm_factor = power_factor ** 0.8` modelled by `Real.rpow`. -/
def calculate_environmental_effects (cp : CondParams) : EnvFactors :=
  ⟨current_sog_factor cp, power_factor cp, power_factor cp * 1.1,
   power_factor cp * 1.1, power_factor cp ^ (0.8 : ℝ)⟩

/-- Python's `float ** float` for the exponents used here: a real result for
a nonnegative base, and the principal complex power for a negative base with
non-integral exponent (Python 3 semantics). -/
def pyFloatPow (b e : ℝ) : ℂ :=
  if 0 ≤ b then ((b ^ e : ℝ) : ℂ) else (b : ℂ) ^ (e : ℂ)

/-- The factors of `calculate_environmental_effects` with `rpm_factor`
carrying Python's possibly-complex `** 0.8` result. -/
structure EnvFactorsPy where
  sog_factor : ℝ
  power_factor : ℝ
  fuel_factor : ℝ
  emission_factor : ℝ
  rpm_factor : ℂ

/-- `calculate_environmental_effects` with Python's `**` semantics for
`rpm_factor` (line 321); all other factors are unchanged. -/
def calculate_environmental_effects_pyPow (cp : CondParams) : EnvFactorsPy :=
  ⟨current_sog_factor cp, power_factor cp, power_factor cp * 1.1,
   power_factor cp * 1.1, pyFloatPow (power_factor cp) 0.8⟩

/-- Base-value table `base_values["sog_base"]`. -/
def sog_base : List (Option ℝ) :=
  [some 7.02808, some 8.02808, some 9.02808, some 10.02808, some 11.02808,
   some 12.02808, some 13.02808, none, none]

/-- Base-value table `base_values["stw"]` (present in the source but never
read by the loop, which echoes the input sample instead). -/
def stw_base : List (Option ℝ) :=
  [some 8.0, some 9.0, some 10.0, some 11.0, some 12.0, some 13.0,
   some 14.0, none, none]

/-- Base-value table `base_values["me_rpm_base"]`. -/
def me_rpm_base : List (Option ℝ) :=
  [some 35.563477161420984, some 38.86856315406255, some 42.3286138994565,
   some 45.958934292444695, some 49.77248238124245, some 53.780632616735986,
   some 57.993745359998364, none, none]

/-- Base-value table `base_values["me_power_base"]`. -/
def me_power_base : List (Option ℝ) :=
  [some 4014.487664675082, some 5034.96591338081, some 6306.250909817854,
   some 7883.151679670297, some 9830.679471751078, some 12225.665331559763,
   some 15158.644854083537, none, none]

/-- Base-value table `base_values["me_fo_consumption_base"]`. -/
def me_fo_consumption_base : List (Option ℝ) :=
  [some 18.24386889835794, some 22.461921943399787, some 27.57687777045103,
   some 33.79875072031291, some 41.47119688825557, some 51.21728628254814,
   some 64.2267638497258, none, none]

/-- Base-value table `base_values["me_fo_emission_base"]`. -/
def me_fo_emission_base : List (Option ℝ) :=
  [some 57.842186342243835, some 71.21552352154902, some 87.43249097121499,
   some 107.15893915875206, some 131.48442973421427, some 162.38440615881885,
   some 203.63095478555562, none, none]

/-- The per-index uniform draws of the process-wide random source: for each
sample index, the draw consumed for each of the five jittered metrics. -/
structure Jitter where
  sog : ℕ → ℝ
  rpm : ℕ → ℝ
  power : ℕ → ℝ
  fuel : ℕ → ℝ
  emission : ℕ → ℝ

/-- The draws lie in the source's `random.uniform` intervals: SOG ±3 %,
RPM ±2 %, power ±5 %, fuel ±4 %, emissions ±4 %. -/
def Jitter.Admissible (j : Jitter) : Prop :=
  (∀ i, 0.97 ≤ j.sog i ∧ j.sog i ≤ 1.03) ∧
  (∀ i, 0.98 ≤ j.rpm i ∧ j.rpm i ≤ 1.02) ∧
  (∀ i, 0.95 ≤ j.power i ∧ j.power i ≤ 1.05) ∧
  (∀ i, 0.96 ≤ j.fuel i ∧ j.fuel i ≤ 1.04) ∧
  (∀ i, 0.96 ≤ j.emission i ∧ j.emission i ≤ 1.04)

/-- Python `round(x, 5)` (ties excepted, see the module comment). -/
def round5 (x : ℝ) : ℝ := ((round (x * 100000) : ℤ) : ℝ) / 100000

/-- Python `round(x, 2)` (ties excepted, see the module comment). -/
def round2 (x : ℝ) : ℝ := ((round (x * 100) : ℤ) : ℝ) / 100

/-- One limit-violation record appended to `errors` (its redundant
`description` string is not modelled). -/
structure LimitViolation where
  error_code : String
  indices : List ℕ

/-- The test `i < len(tbl) and tbl[i] is not None`, returning the base value
when both hold. -/
def baseAt (tbl : List (Option ℝ)) (i : ℕ) : Option ℝ := (tbl[i]?).bind id

/-- The six values appended for one loop iteration, and the limit-violation
records appended while producing them. -/
structure Row where
  sog : Option ℝ
  stw : Option ℝ
  me_rpm : Option ℝ
  me_power : Option ℝ
  me_fo_consumption : Option ℝ
  me_fo_emission : Option ℝ
  errs : List LimitViolation

/-- One iteration of the `for i, stw in enumerate(stw_range)` loop of
`query_mock_api` (lines 146–251): a `None` sample appends `None` to every
series; otherwise each metric is base value × factor × jitter, with the RPM
and power limit checks clipping and recording a violation. -/
def querySample (ship : Vessel) (cp : CondParams) (jit : Jitter) (i : ℕ) :
    Option ℝ → Row
  | none => ⟨none, none, none, none, none, none, []⟩
  | some stw =>
    let env := calculate_environmental_effects cp
    let sogOut : Option ℝ :=
      (baseAt sog_base i).map fun b => round5 (b * env.sog_factor * jit.sog i)
    let rpmOut : Option ℝ :=
      match baseAt me_rpm_base i with
      | none => none
      | some b =>
        let rpm := b * env.rpm_factor * jit.rpm i
        if rpm ≥ ship.max_rpm then some (round5 (ship.max_rpm * 0.98))
        else some (round5 rpm)
    let rpmErr : List LimitViolation :=
      match baseAt me_rpm_base i with
      | none => []
      | some b =>
        if b * env.rpm_factor * jit.rpm i ≥ ship.max_rpm then
          [⟨"max_rpm_limit_exceeded", [i]⟩]
        else []
    let powOut : Option ℝ :=
      match baseAt me_power_base i with
      | none => none
      | some b =>
        let power := b * env.power_factor * jit.power i
        if power ≥ ship.mcr * 0.9 then some (round2 (ship.mcr * 0.9))
        else some (round2 power)
    let powErr : List LimitViolation :=
      match baseAt me_power_base i with
      | none => []
      | some b =>
        if b * env.power_factor * jit.power i ≥ ship.mcr * 0.9 then
          [⟨"max_mcr_limit_exceeded", [i]⟩]
        else []
    let fuelOut : Option ℝ :=
      (baseAt me_fo_consumption_base i).map fun b =>
        round2 (b * env.fuel_factor * jit.fuel i)
    let emisOut : Option ℝ :=
      (baseAt me_fo_emission_base i).map fun b =>
        round2 (b * env.emission_factor * jit.emission i)
    ⟨sogOut, some stw, rpmOut, powOut, fuelOut, emisOut, rpmErr ++ powErr⟩

/-- The whole loop, carrying the running index `k`. -/
def buildRows (ship : Vessel) (cp : CondParams) (jit : Jitter) :
    ℕ → List (Option ℝ) → List Row
  | _, [] => []
  | k, s :: rest => querySample ship cp jit k s :: buildRows ship cp jit (k + 1) rest

/-- The `results` dict returned by `query_mock_api`. -/
structure QueryResult where
  sog : List (Option ℝ)
  stw : List (Option ℝ)
  me_rpm : List (Option ℝ)
  me_power : List (Option ℝ)
  me_fo_consumption : List (Option ℝ)
  me_fo_emission : List (Option ℝ)
  errors : List LimitViolation

/-- The default `stw_range` (line 57). -/
def DEFAULT_STW_RANGE : List (Option ℝ) :=
  [some 8.0, some 9.0, some 10.0, some 11.0, some 12.0, some 13.0,
   some 14.0, some 15.0, some 16.0]

/-- The catalog lookup (lines 69–71): first matching `imo_number`, with the
first catalog entry as the `next(..., SAMPLE_SHIPS[0])` fallback. -/
def findShip (imo : ℤ) : Vessel :=
  (SAMPLE_SHIPS.find? fun s => s.imo_number == imo).getD
    (SAMPLE_SHIPS.headD demoVessel)

/-- `query_mock_api` (lines 53–254). -/
def query_mock_api (imo : ℤ) (stw_rangeOpt : Option (List (Option ℝ)))
    (co : Option CondOverride) (jit : Jitter) : QueryResult :=
  let stw_range := stw_rangeOpt.getD DEFAULT_STW_RANGE
  let cp := resolveConditioningParams co
  let ship := findShip imo
  let rows := buildRows ship cp jit 0 stw_range
  ⟨rows.map Row.sog, rows.map Row.stw, rows.map Row.me_rpm,
   rows.map Row.me_power, rows.map Row.me_fo_consumption,
   rows.map Row.me_fo_emission, (rows.map Row.errs).flatten⟩

/-- Constant jitter stream drawing 1 everywhere (admissible for every
metric). -/
def jitOne : Jitter := ⟨fun _ => 1, fun _ => 1, fun _ => 1, fun _ => 1, fun _ => 1⟩

/-- A jitter stream far outside the uniform bounds, used to reach the RPM
and power limits from the low base values. -/
def jitBig : Jitter := ⟨fun _ => 1, fun _ => 2, fun _ => 5, fun _ => 1, fun _ => 1⟩

/-- An admissible jitter stream drawing the top of the RPM band. -/
def jitTop : Jitter := ⟨fun _ => 1, fun _ => 1.02, fun _ => 1, fun _ => 1, fun _ => 1⟩

/-- A caller override zeroing wind and wave, restoring draft to baseline and
trim to zero, leaving the other keys at their defaults. -/
def ovNeutral : CondOverride :=
  ⟨some 0, none, some 0, none, none, none, some 20, some 0, none, none⟩

/-- The resolved parameters for `ovNeutral`. -/
def cpNeutral : CondParams := ⟨0, 180, 0, 90, 0.5, 0, 20, 0, 0, 41.5⟩

/-- Parameters with a large negative `mean_draft`, driving the combined
power factor negative. -/
def cpNegDraft : CondParams := ⟨0, 180, 0, 90, 0.5, 0, -120, 0, 0, 41.5⟩

/-- A 7-sample input whose only real sample sits at index 6. -/
def stwLast : List (Option ℝ) := [none, none, none, none, none, none, some 14.0]

/-- A 10-sample input whose 10th entry (index 9) is a real speed value. -/
def stwTen : List (Option ℝ) := DEFAULT_STW_RANGE ++ [some 17.0]

/-- The per-index, per-code predicate used to count limit violations. -/
def pCode (c : String) (j : ℕ) (e : LimitViolation) : Bool :=
  e.error_code == c && e.indices == [j]

/-! ### Basic lemmas about the embedding -/

theorem resolve_ovNeutral : resolveConditioningParams (some ovNeutral) = cpNeutral := rfl

theorem power_factor_cpNeutral : power_factor cpNeutral = 1 := by
  have hw : wind_factor cpNeutral = 1 := by
    simp only [wind_factor, relative_wind_angle, cpNeutral]
    norm_num
  unfold power_factor
  rw [hw]
  simp only [wave_factor, draft_factor, trim_factor, cpNeutral]
  norm_num

theorem calcEnv_cpNeutral :
    calculate_environmental_effects cpNeutral = ⟨1, 1, 1.1, 1.1, 1⟩ := by
  have hc : current_sog_factor cpNeutral = 1 := by
    simp only [current_sog_factor, relative_current_angle, cpNeutral]
    norm_num
  simp only [calculate_environmental_effects, power_factor_cpNeutral, hc,
    EnvFactors.mk.injEq]
  norm_num [Real.one_rpow]

theorem findShip_eq (imo : ℤ) : findShip imo = demoVessel := by
  simp only [findShip, SAMPLE_SHIPS, List.find?]
  cases h : (demoVessel.imo_number == imo) <;> rfl

theorem round5_le_add (x : ℝ) : round5 x ≤ x + 1 / 200000 := by
  have h := (abs_sub_le_iff.mp (abs_sub_round (x * 100000))).2
  unfold round5
  nlinarith

theorem round2_le_add (x : ℝ) : round2 x ≤ x + 1 / 200 := by
  have h := (abs_sub_le_iff.mp (abs_sub_round (x * 100))).2
  unfold round2
  nlinarith

theorem buildRows_length (ship : Vessel) (cp : CondParams) (jit : Jitter) :
    ∀ (k : ℕ) (l : List (Option ℝ)), (buildRows ship cp jit k l).length = l.length := by
  intro k l
  induction l generalizing k with
  | nil => rfl
  | cons s rest ih => simp [buildRows, ih]

theorem buildRows_getElem? (ship : Vessel) (cp : CondParams) (jit : Jitter) :
    ∀ (k i : ℕ) (l : List (Option ℝ)),
      (buildRows ship cp jit k l)[i]? = (l[i]?).map (querySample ship cp jit (k + i)) := by
  intro k i l
  induction l generalizing k i with
  | nil => simp [buildRows]
  | cons s rest ih =>
    cases i with
    | zero => simp [buildRows]
    | succ n =>
      simp only [buildRows, List.getElem?_cons_succ, ih (k + 1) n]
      have : k + 1 + n = k + (n + 1) := by omega
      rw [this]

section RowLemmas

variable (ship : Vessel) (cp : CondParams) (jit : Jitter)

theorem querySample_none (i : ℕ) :
    querySample ship cp jit i none = ⟨none, none, none, none, none, none, []⟩ := rfl

theorem querySample_stw (i : ℕ) (s : ℝ) :
    (querySample ship cp jit i (some s)).stw = some s := rfl

theorem querySample_sog (i : ℕ) (s : ℝ) :
    (querySample ship cp jit i (some s)).sog = (baseAt sog_base i).map
      (fun b => round5 (b * (calculate_environmental_effects cp).sog_factor * jit.sog i)) := rfl

theorem querySample_fuel (i : ℕ) (s : ℝ) :
    (querySample ship cp jit i (some s)).me_fo_consumption =
      (baseAt me_fo_consumption_base i).map
      (fun b => round2 (b * (calculate_environmental_effects cp).fuel_factor * jit.fuel i)) := rfl

theorem querySample_emission (i : ℕ) (s : ℝ) :
    (querySample ship cp jit i (some s)).me_fo_emission =
      (baseAt me_fo_emission_base i).map
      (fun b => round2 (b * (calculate_environmental_effects cp).emission_factor * jit.emission i)) := rfl

theorem querySample_me_rpm (i : ℕ) (s b : ℝ) (hb : baseAt me_rpm_base i = some b) :
    (querySample ship cp jit i (some s)).me_rpm =
      (if b * (calculate_environmental_effects cp).rpm_factor * jit.rpm i ≥ ship.max_rpm
       then some (round5 (ship.max_rpm * 0.98))
       else some (round5 (b * (calculate_environmental_effects cp).rpm_factor * jit.rpm i))) := by
  simp only [querySample, hb]

theorem querySample_me_rpm_nobase (i : ℕ) (s : ℝ) (hb : baseAt me_rpm_base i = none) :
    (querySample ship cp jit i (some s)).me_rpm = none := by
  simp only [querySample, hb]

theorem querySample_me_power (i : ℕ) (s b : ℝ) (hb : baseAt me_power_base i = some b) :
    (querySample ship cp jit i (some s)).me_power =
      (if b * (calculate_environmental_effects cp).power_factor * jit.power i ≥ ship.mcr * 0.9
       then some (round2 (ship.mcr * 0.9))
       else some (round2 (b * (calculate_environmental_effects cp).power_factor * jit.power i))) := by
  simp only [querySample, hb]

theorem querySample_me_power_nobase (i : ℕ) (s : ℝ) (hb : baseAt me_power_base i = none) :
    (querySample ship cp jit i (some s)).me_power = none := by
  simp only [querySample, hb]

theorem querySample_errs (i : ℕ) (s brpm bpow : ℝ)
    (hb : baseAt me_rpm_base i = some brpm) (hp : baseAt me_power_base i = some bpow) :
    (querySample ship cp jit i (some s)).errs =
      (if brpm * (calculate_environmental_effects cp).rpm_factor * jit.rpm i ≥ ship.max_rpm
       then [⟨"max_rpm_limit_exceeded", [i]⟩] else []) ++
      (if bpow * (calculate_environmental_effects cp).power_factor * jit.power i ≥ ship.mcr * 0.9
       then [⟨"max_mcr_limit_exceeded", [i]⟩] else []) := by
  simp only [querySample, hb, hp]

theorem querySample_errs_mem (i : ℕ) (sOpt : Option ℝ) (e : LimitViolation)
    (he : e ∈ (querySample ship cp jit i sOpt).errs) :
    e = ⟨"max_rpm_limit_exceeded", [i]⟩ ∨ e = ⟨"max_mcr_limit_exceeded", [i]⟩ := by
  cases sOpt with
  | none => simp [querySample] at he
  | some s =>
    cases hb : baseAt me_rpm_base i <;> cases hp : baseAt me_power_base i <;>
      simp only [querySample, hb, hp, List.mem_append] at he <;>
      (try split_ifs at he) <;> simp_all

theorem querySample_countP_le (i j : ℕ) (sOpt : Option ℝ) (c : String)
    (hc : c = "max_rpm_limit_exceeded" ∨ c = "max_mcr_limit_exceeded") :
    ((querySample ship cp jit i sOpt).errs).countP (fun e => pCode c j e) ≤ 1 := by
  cases sOpt with
  | none => simp [querySample]
  | some s =>
    cases hb : baseAt me_rpm_base i <;> cases hp : baseAt me_power_base i <;>
      rcases hc with rfl | rfl <;>
      simp only [querySample, hb, hp, List.countP_append] <;>
      (try split_ifs) <;>
      simp [pCode, List.countP_cons, List.countP_nil] <;>
      (try split_ifs) <;> simp_all

theorem querySample_countP_ne (i j : ℕ) (sOpt : Option ℝ) (c : String) (hij : i ≠ j) :
    ((querySample ship cp jit i sOpt).errs).countP (fun e => pCode c j e) = 0 := by
  rw [List.countP_eq_zero]
  intro e he
  rcases querySample_errs_mem ship cp jit i sOpt e he with rfl | rfl <;>
    simp [pCode, hij]

end RowLemmas

section ErrorsLemmas

variable (ship : Vessel) (cp : CondParams) (jit : Jitter)

theorem mem_buildRows_errs :
    ∀ (k : ℕ) (l : List (Option ℝ)) (e : LimitViolation),
      e ∈ ((buildRows ship cp jit k l).map Row.errs).flatten →
      ∃ j sOpt, l[j]? = some sOpt ∧ e ∈ (querySample ship cp jit (k + j) sOpt).errs := by
  intro k l
  induction l generalizing k with
  | nil => intro e he; simp [buildRows] at he
  | cons s rest ih =>
    intro e he
    simp only [buildRows, List.map_cons, List.flatten_cons, List.mem_append] at he
    rcases he with h | h
    · exact ⟨0, s, by simp, by simpa using h⟩
    · obtain ⟨j, sOpt, hj, hmem⟩ := ih (k + 1) e h
      refine ⟨j + 1, sOpt, by simpa using hj, ?_⟩
      have hk : k + 1 + j = k + (j + 1) := by omega
      rwa [hk] at hmem

theorem buildRows_errs_mem_intro :
    ∀ (k j : ℕ) (l : List (Option ℝ)) (sOpt : Option ℝ) (e : LimitViolation),
      l[j]? = some sOpt → e ∈ (querySample ship cp jit (k + j) sOpt).errs →
      e ∈ ((buildRows ship cp jit k l).map Row.errs).flatten := by
  intro k j l
  induction l generalizing k j with
  | nil => intro sOpt e h; simp at h
  | cons s rest ih =>
    intro sOpt e h hmem
    simp only [buildRows, List.map_cons, List.flatten_cons, List.mem_append]
    cases j with
    | zero =>
      simp only [List.getElem?_cons_zero, Option.some.injEq] at h
      subst h
      exact Or.inl (by simpa using hmem)
    | succ n =>
      simp only [List.getElem?_cons_succ] at h
      refine Or.inr ?_
      have hk : k + (n + 1) = k + 1 + n := by omega
      rw [hk] at hmem
      exact ih (k + 1) n sOpt e h hmem

theorem buildRows_errs_sorted :
    ∀ (k : ℕ) (l : List (Option ℝ)),
      (((buildRows ship cp jit k l).map Row.errs).flatten).Pairwise
        (fun a b => a.indices.headD 0 ≤ b.indices.headD 0) := by
  intro k l
  induction l generalizing k with
  | nil => simp [buildRows]
  | cons s rest ih =>
    simp only [buildRows, List.map_cons, List.flatten_cons]
    rw [List.pairwise_append]
    refine ⟨?_, ih (k + 1), ?_⟩
    · refine List.pairwise_of_forall_mem_list ?_
      intro a ha b hb
      rcases querySample_errs_mem ship cp jit k s a ha with rfl | rfl <;>
        rcases querySample_errs_mem ship cp jit k s b hb with rfl | rfl <;> simp
    · intro a ha b hb
      obtain ⟨j, sOpt, _, hmem⟩ := mem_buildRows_errs ship cp jit (k + 1) rest b hb
      rcases querySample_errs_mem ship cp jit k s a ha with rfl | rfl <;>
        rcases querySample_errs_mem ship cp jit (k + 1 + j) sOpt b hmem with rfl | rfl <;>
        simp <;> omega

theorem buildRows_errs_countP_zero (c : String) :
    ∀ (k j : ℕ) (l : List (Option ℝ)), j < k →
      (((buildRows ship cp jit k l).map Row.errs).flatten).countP
        (fun e => pCode c j e) = 0 := by
  intro k j l
  induction l generalizing k with
  | nil => intro _; simp [buildRows]
  | cons s rest ih =>
    intro hjk
    simp only [buildRows, List.map_cons, List.flatten_cons, List.countP_append]
    rw [querySample_countP_ne ship cp jit k j s c (by omega), ih (k + 1) (by omega)]

theorem buildRows_errs_countP_le (c : String)
    (hc : c = "max_rpm_limit_exceeded" ∨ c = "max_mcr_limit_exceeded") :
    ∀ (k j : ℕ) (l : List (Option ℝ)),
      (((buildRows ship cp jit k l).map Row.errs).flatten).countP
        (fun e => pCode c j e) ≤ 1 := by
  intro k j l
  induction l generalizing k with
  | nil => simp [buildRows]
  | cons s rest ih =>
    simp only [buildRows, List.map_cons, List.flatten_cons, List.countP_append]
    by_cases hkj : k = j
    · subst hkj
      have h0 := buildRows_errs_countP_zero ship cp jit c (k + 1) k rest (by omega)
      have h1 := querySample_countP_le ship cp jit k k s c hc
      omega
    · have h0 := querySample_countP_ne ship cp jit k j s c hkj
      have h1 := ih (k + 1)
      omega

end ErrorsLemmas

section QueryLemmas

variable (imo : ℤ) (sr : Option (List (Option ℝ))) (co : Option CondOverride) (jit : Jitter)

theorem query_sog : (query_mock_api imo sr co jit).sog =
    (buildRows (findShip imo) (resolveConditioningParams co) jit 0
      (sr.getD DEFAULT_STW_RANGE)).map Row.sog := rfl

theorem query_stw : (query_mock_api imo sr co jit).stw =
    (buildRows (findShip imo) (resolveConditioningParams co) jit 0
      (sr.getD DEFAULT_STW_RANGE)).map Row.stw := rfl

theorem query_me_rpm : (query_mock_api imo sr co jit).me_rpm =
    (buildRows (findShip imo) (resolveConditioningParams co) jit 0
      (sr.getD DEFAULT_STW_RANGE)).map Row.me_rpm := rfl

theorem query_me_power : (query_mock_api imo sr co jit).me_power =
    (buildRows (findShip imo) (resolveConditioningParams co) jit 0
      (sr.getD DEFAULT_STW_RANGE)).map Row.me_power := rfl

theorem query_fuel : (query_mock_api imo sr co jit).me_fo_consumption =
    (buildRows (findShip imo) (resolveConditioningParams co) jit 0
      (sr.getD DEFAULT_STW_RANGE)).map Row.me_fo_consumption := rfl

theorem query_emission : (query_mock_api imo sr co jit).me_fo_emission =
    (buildRows (findShip imo) (resolveConditioningParams co) jit 0
      (sr.getD DEFAULT_STW_RANGE)).map Row.me_fo_emission := rfl

theorem query_errors : (query_mock_api imo sr co jit).errors =
    ((buildRows (findShip imo) (resolveConditioningParams co) jit 0
      (sr.getD DEFAULT_STW_RANGE)).map Row.errs).flatten := rfl

end QueryLemmas

section ViolationLemmas

variable (ship : Vessel) (cp : CondParams) (jit : Jitter)

theorem querySample_rpm_violation_iff (i : ℕ) (s : ℝ) :
    (⟨"max_rpm_limit_exceeded", [i]⟩ : LimitViolation) ∈
        (querySample ship cp jit i (some s)).errs ↔
      ∃ b, baseAt me_rpm_base i = some b ∧
        b * (calculate_environmental_effects cp).rpm_factor * jit.rpm i ≥ ship.max_rpm := by
  cases hb : baseAt me_rpm_base i <;> cases hp : baseAt me_power_base i <;>
    simp only [querySample, hb, hp, List.mem_append] <;>
    (try split_ifs) <;> simp_all

theorem querySample_mcr_violation_iff (i : ℕ) (s : ℝ) :
    (⟨"max_mcr_limit_exceeded", [i]⟩ : LimitViolation) ∈
        (querySample ship cp jit i (some s)).errs ↔
      ∃ b, baseAt me_power_base i = some b ∧
        b * (calculate_environmental_effects cp).power_factor * jit.power i ≥ ship.mcr * 0.9 := by
  cases hb : baseAt me_rpm_base i <;> cases hp : baseAt me_power_base i <;>
    simp only [querySample, hb, hp, List.mem_append] <;>
    (try split_ifs) <;> simp_all

end ViolationLemmas

/-! ### Claims -/

/-- C5: for every conditioning-parameter assignment with `wind_speed = 0`,
`wave_height = 0`, `mean_draft = 20` and `trim = 0` (all other parameters
arbitrary), `calculate_environmental_effects` returns `power_factor = 1.0`,
`fuel_factor = emission_factor = 1.1` and `rpm_factor = 1.0`. -/
theorem c5_factor_identities (cp : CondParams)
    (h1 : cp.wind_speed = 0) (h2 : cp.wave_height = 0)
    (h3 : cp.mean_draft = 20) (h4 : cp.trim = 0) :
    (calculate_environmental_effects cp).power_factor = 1 ∧
    (calculate_environmental_effects cp).fuel_factor = 1.1 ∧
    (calculate_environmental_effects cp).emission_factor = 1.1 ∧
    (calculate_environmental_effects cp).rpm_factor = 1 := by
  have hw : wind_factor cp = 1 := by
    unfold wind_factor
    split_ifs <;> norm_num [h1]
  have hp : power_factor cp = 1 := by
    unfold power_factor wave_factor draft_factor trim_factor
    rw [hw, h2, h3, h4]
    norm_num
  have hall : calculate_environmental_effects cp =
      ⟨current_sog_factor cp, 1, 1.1, 1.1, 1⟩ := by
    simp only [calculate_environmental_effects, hp, EnvFactors.mk.injEq]
    norm_num [Real.one_rpow]
  rw [hall]
  exact ⟨rfl, rfl, rfl, rfl⟩

/-- C5 witness: a concrete assignment with the four neutral values and the
remaining parameters away from their defaults. -/
theorem c5_factor_identities_witness :
    (calculate_environmental_effects ⟨0, 30, 0, 90, 1, 45, 20, 0, 10, 41.5⟩).power_factor = 1 ∧
    (calculate_environmental_effects ⟨0, 30, 0, 90, 1, 45, 20, 0, 10, 41.5⟩).fuel_factor = 1.1 ∧
    (calculate_environmental_effects ⟨0, 30, 0, 90, 1, 45, 20, 0, 10, 41.5⟩).emission_factor = 1.1 ∧
    (calculate_environmental_effects ⟨0, 30, 0, 90, 1, 45, 20, 0, 10, 41.5⟩).rpm_factor = 1 :=
  c5_factor_identities ⟨0, 30, 0, 90, 1, 45, 20, 0, 10, 41.5⟩ rfl rfl rfl rfl

/-- C6: resolving no override yields exactly the canonical defaults;
resolving `{wind_speed: 10}` changes only `wind_speed`; and after any merge
every one of the ten recognised fields has a value — the caller's keys
overlay the complete default set field by field, absent keys keeping their
defaults. -/
theorem c6_default_merge :
    resolveConditioningParams none = CONDITIONING_PARAMS ∧
    resolveConditioningParams
        (some ⟨some 10, none, none, none, none, none, none, none, none, none⟩) =
      ⟨10, 180, 2, 90, 0.5, 0, 20, -1, 0, 41.5⟩ ∧
    ∀ o : CondOverride,
      resolveConditioningParams (some o) =
        ⟨o.wind_speed.getD 6, o.wind_direction.getD 180, o.wave_height.getD 2,
         o.wave_direction.getD 90, o.current_speed.getD 0.5,
         o.current_direction.getD 0, o.mean_draft.getD 20, o.trim.getD (-1),
         o.ship_heading.getD 0, o.fuel_specific_energy.getD 41.5⟩ :=
  ⟨rfl, rfl, fun _ => rfl⟩

/-- C7: an `imo_number` absent from the catalog resolves to the default
vessel (the catalog's first entry) without failing, and the whole query
output coincides with the default vessel's output for the same remaining
arguments. -/
theorem c7_unknown_vessel (imo : ℤ)
    (h : ∀ s ∈ SAMPLE_SHIPS, s.imo_number ≠ imo) :
    findShip imo = demoVessel ∧
    ∀ (sr : Option (List (Option ℝ))) (co : Option CondOverride) (jit : Jitter),
      query_mock_api imo sr co jit = query_mock_api demoVessel.imo_number sr co jit := by
  refine ⟨findShip_eq imo, ?_⟩
  intro sr co jit
  unfold query_mock_api
  rw [findShip_eq, findShip_eq]

/-- C7 witness: IMO 1234567 is not in the catalog and gets the default
vessel's output. -/
theorem c7_unknown_vessel_witness :
    findShip 1234567 = demoVessel ∧
    query_mock_api 1234567 none none jitOne = query_mock_api 9999999 none none jitOne := by
  have h := c7_unknown_vessel 1234567 (by
    intro s hs
    simp only [SAMPLE_SHIPS, List.mem_singleton] at hs
    subst hs
    simp [demoVessel])
  exact ⟨h.1, h.2 none none jitOne⟩

/-- C8: the folded relative wind and current angles always lie at or below
180, so both `> 270` branches are unreachable: `wind_factor` and
`current_sog_factor` coincide with the forms that drop the tailwind and
head-current subtractions. -/
theorem c8_dead_branch (cp : CondParams) :
    relative_wind_angle cp ≤ 180 ∧
    relative_current_angle cp ≤ 180 ∧
    ¬ (relative_wind_angle cp > 270) ∧
    ¬ (relative_current_angle cp > 270) ∧
    wind_factor cp = (if relative_wind_angle cp < 90 then
        1.0 + cp.wind_speed * 0.02 * (relative_wind_angle cp / 90) else 1.0) ∧
    current_sog_factor cp = (if relative_current_angle cp < 90 then
        1.0 + cp.current_speed * 0.1 * (relative_current_angle cp / 90) else 1.0) := by
  have hw : relative_wind_angle cp ≤ 180 := by
    simp only [relative_wind_angle]
    split_ifs with h
    · linarith
    · linarith [not_lt.mp h]
  have hc : relative_current_angle cp ≤ 180 := by
    simp only [relative_current_angle]
    split_ifs with h
    · linarith
    · linarith [not_lt.mp h]
  refine ⟨hw, hc, by linarith, by linarith, ?_, ?_⟩
  · unfold wind_factor
    split_ifs with h1 h2
    · rfl
    · linarith
    · rfl
  · unfold current_sog_factor
    split_ifs with h1 h2
    · rfl
    · linarith
    · rfl

/-- C8 witness: the dead-branch facts at the default conditioning
parameters. -/
theorem c8_dead_branch_witness :
    relative_wind_angle CONDITIONING_PARAMS ≤ 180 ∧
    relative_current_angle CONDITIONING_PARAMS ≤ 180 ∧
    ¬ (relative_wind_angle CONDITIONING_PARAMS > 270) ∧
    ¬ (relative_current_angle CONDITIONING_PARAMS > 270) ∧
    wind_factor CONDITIONING_PARAMS =
      (if relative_wind_angle CONDITIONING_PARAMS < 90 then
        1.0 + CONDITIONING_PARAMS.wind_speed * 0.02 *
          (relative_wind_angle CONDITIONING_PARAMS / 90) else 1.0) ∧
    current_sog_factor CONDITIONING_PARAMS =
      (if relative_current_angle CONDITIONING_PARAMS < 90 then
        1.0 + CONDITIONING_PARAMS.current_speed * 0.1 *
          (relative_current_angle CONDITIONING_PARAMS / 90) else 1.0) :=
  c8_dead_branch CONDITIONING_PARAMS

/-- C3: for an input of length at most 9, all six output series have the
input's length, and an index holding a null sample is null in all six
series. -/
theorem c3_structure (imo : ℤ) (l : List (Option ℝ)) (co : Option CondOverride)
    (jit : Jitter) (h9 : l.length ≤ 9) :
    ((query_mock_api imo (some l) co jit).sog.length = l.length ∧
     (query_mock_api imo (some l) co jit).stw.length = l.length ∧
     (query_mock_api imo (some l) co jit).me_rpm.length = l.length ∧
     (query_mock_api imo (some l) co jit).me_power.length = l.length ∧
     (query_mock_api imo (some l) co jit).me_fo_consumption.length = l.length ∧
     (query_mock_api imo (some l) co jit).me_fo_emission.length = l.length) ∧
    ∀ i : ℕ, l[i]? = some none →
      ((query_mock_api imo (some l) co jit).sog[i]? = some none ∧
       (query_mock_api imo (some l) co jit).stw[i]? = some none ∧
       (query_mock_api imo (some l) co jit).me_rpm[i]? = some none ∧
       (query_mock_api imo (some l) co jit).me_power[i]? = some none ∧
       (query_mock_api imo (some l) co jit).me_fo_consumption[i]? = some none ∧
       (query_mock_api imo (some l) co jit).me_fo_emission[i]? = some none) := by
  constructor
  · refine ⟨?_, ?_, ?_, ?_, ?_, ?_⟩ <;>
      simp [query_sog, query_stw, query_me_rpm, query_me_power, query_fuel,
        query_emission, List.length_map, buildRows_length]
  · intro i hi
    refine ⟨?_, ?_, ?_, ?_, ?_, ?_⟩ <;>
      simp [query_sog, query_stw, query_me_rpm, query_me_power, query_fuel,
        query_emission, List.getElem?_map, buildRows_getElem?, hi, querySample_none]

/-- C3 witness: a two-sample input with a null second sample. -/
theorem c3_structure_witness :
    ((query_mock_api 9999999 (some [some 8.0, none]) none jitOne).sog.length = 2 ∧
     (query_mock_api 9999999 (some [some 8.0, none]) none jitOne).stw.length = 2 ∧
     (query_mock_api 9999999 (some [some 8.0, none]) none jitOne).me_rpm.length = 2 ∧
     (query_mock_api 9999999 (some [some 8.0, none]) none jitOne).me_power.length = 2 ∧
     (query_mock_api 9999999 (some [some 8.0, none]) none jitOne).me_fo_consumption.length = 2 ∧
     (query_mock_api 9999999 (some [some 8.0, none]) none jitOne).me_fo_emission.length = 2) ∧
    ((query_mock_api 9999999 (some [some 8.0, none]) none jitOne).sog[1]? = some none ∧
     (query_mock_api 9999999 (some [some 8.0, none]) none jitOne).stw[1]? = some none ∧
     (query_mock_api 9999999 (some [some 8.0, none]) none jitOne).me_rpm[1]? = some none ∧
     (query_mock_api 9999999 (some [some 8.0, none]) none jitOne).me_power[1]? = some none ∧
     (query_mock_api 9999999 (some [some 8.0, none]) none jitOne).me_fo_consumption[1]? = some none ∧
     (query_mock_api 9999999 (some [some 8.0, none]) none jitOne).me_fo_emission[1]? = some none) := by
  have h := c3_structure 9999999 [some 8.0, none] none jitOne (by norm_num)
  exact ⟨h.1, h.2 1 rfl⟩

/-- C4 counterexample: for a 10-entry input whose 10th entry is the real
speed 17.0, the `stw` output series at index 9 echoes the input value and is
not "no data", contradicting "null in every one of the six metric
series". -/
theorem c4_stw_echo_counterexample :
    (query_mock_api 9999999 (some stwTen) none jitOne).stw[9]? = some (some (17.0 : ℝ)) ∧
    some (17.0 : ℝ) ≠ (none : Option ℝ) := by
  refine ⟨?_, by simp⟩
  rw [query_stw, List.getElem?_map, buildRows_getElem?]
  norm_num [stwTen, DEFAULT_STW_RANGE, querySample_stw]

/-- C4 (amended): for a 10-entry input whose 10th entry (index 9) is a real
speed value, the five derived series (`sog`, `me_rpm`, `me_power`,
`me_fo_consumption`, `me_fo_emission`) are "no data" at index 9 — it
exceeds the 9-slot base-value table — while the `stw` series echoes the
input value there. -/
theorem c4_boundary (imo : ℤ) (l : List (Option ℝ)) (co : Option CondOverride)
    (jit : Jitter) (s : ℝ) (hlen : l.length = 10) (h9 : l[9]? = some (some s)) :
    (query_mock_api imo (some l) co jit).sog[9]? = some none ∧
    (query_mock_api imo (some l) co jit).me_rpm[9]? = some none ∧
    (query_mock_api imo (some l) co jit).me_power[9]? = some none ∧
    (query_mock_api imo (some l) co jit).me_fo_consumption[9]? = some none ∧
    (query_mock_api imo (some l) co jit).me_fo_emission[9]? = some none ∧
    (query_mock_api imo (some l) co jit).stw[9]? = some (some s) := by
  have hsog : baseAt sog_base 9 = none := rfl
  have hrpm : baseAt me_rpm_base 9 = none := rfl
  have hpow : baseAt me_power_base 9 = none := rfl
  have hfuel : baseAt me_fo_consumption_base 9 = none := rfl
  have hemis : baseAt me_fo_emission_base 9 = none := rfl
  refine ⟨?_, ?_, ?_, ?_, ?_, ?_⟩ <;>
    simp [query_sog, query_me_rpm, query_me_power, query_fuel, query_emission,
      query_stw, List.getElem?_map, buildRows_getElem?, h9, querySample_sog,
      querySample_me_rpm_nobase, querySample_me_power_nobase, querySample_fuel,
      querySample_emission, querySample_stw, hsog, hrpm, hpow, hfuel, hemis]

/-- C4 witness for the amended claim, at the same 10-entry input. -/
theorem c4_boundary_witness :
    (query_mock_api 9999999 (some stwTen) none jitOne).sog[9]? = some none ∧
    (query_mock_api 9999999 (some stwTen) none jitOne).me_rpm[9]? = some none ∧
    (query_mock_api 9999999 (some stwTen) none jitOne).me_power[9]? = some none ∧
    (query_mock_api 9999999 (some stwTen) none jitOne).me_fo_consumption[9]? = some none ∧
    (query_mock_api 9999999 (some stwTen) none jitOne).me_fo_emission[9]? = some none ∧
    (query_mock_api 9999999 (some stwTen) none jitOne).stw[9]? = some (some (17.0 : ℝ)) :=
  c4_boundary 9999999 stwTen none jitOne 17.0 (by rfl)
    (by norm_num [stwTen, DEFAULT_STW_RANGE])

/-- C1: at every sample index holding a real speed and a base value, a
computed RPM (base × `rpm_factor` × jitter) at or above the vessel's
`max_rpm` yields the clipped output `max_rpm * 0.98` and appends a
`max_rpm_limit_exceeded` violation naming that index; a computed power at or
above `mcr * 0.9` yields the clipped output `mcr * 0.9` and appends a
`max_mcr_limit_exceeded` violation naming that index; below the thresholds
the rounded raw value is kept and no violation names the index. -/
theorem c1_limit_checks (imo : ℤ) (l : List (Option ℝ)) (co : Option CondOverride)
    (jit : Jitter) (i : ℕ) (s brpm bpow : ℝ)
    (hs : l[i]? = some (some s))
    (hbr : baseAt me_rpm_base i = some brpm)
    (hbp : baseAt me_power_base i = some bpow) :
    (brpm * (calculate_environmental_effects (resolveConditioningParams co)).rpm_factor
        * jit.rpm i ≥ (findShip imo).max_rpm →
      (query_mock_api imo (some l) co jit).me_rpm[i]? =
        some (some (round5 ((findShip imo).max_rpm * 0.98))) ∧
      (⟨"max_rpm_limit_exceeded", [i]⟩ : LimitViolation) ∈
        (query_mock_api imo (some l) co jit).errors) ∧
    (brpm * (calculate_environmental_effects (resolveConditioningParams co)).rpm_factor
        * jit.rpm i < (findShip imo).max_rpm →
      (query_mock_api imo (some l) co jit).me_rpm[i]? =
        some (some (round5 (brpm *
          (calculate_environmental_effects (resolveConditioningParams co)).rpm_factor
          * jit.rpm i))) ∧
      (⟨"max_rpm_limit_exceeded", [i]⟩ : LimitViolation) ∉
        (query_mock_api imo (some l) co jit).errors) ∧
    (bpow * (calculate_environmental_effects (resolveConditioningParams co)).power_factor
        * jit.power i ≥ (findShip imo).mcr * 0.9 →
      (query_mock_api imo (some l) co jit).me_power[i]? =
        some (some (round2 ((findShip imo).mcr * 0.9))) ∧
      (⟨"max_mcr_limit_exceeded", [i]⟩ : LimitViolation) ∈
        (query_mock_api imo (some l) co jit).errors) ∧
    (bpow * (calculate_environmental_effects (resolveConditioningParams co)).power_factor
        * jit.power i < (findShip imo).mcr * 0.9 →
      (query_mock_api imo (some l) co jit).me_power[i]? =
        some (some (round2 (bpow *
          (calculate_environmental_effects (resolveConditioningParams co)).power_factor
          * jit.power i))) ∧
      (⟨"max_mcr_limit_exceeded", [i]⟩ : LimitViolation) ∉
        (query_mock_api imo (some l) co jit).errors) ∧
    (brpm * (calculate_environmental_effects (resolveConditioningParams co)).rpm_factor
        * jit.rpm i < (findShip imo).max_rpm →
     bpow * (calculate_environmental_effects (resolveConditioningParams co)).power_factor
        * jit.power i < (findShip imo).mcr * 0.9 →
      ∀ e ∈ (query_mock_api imo (some l) co jit).errors, e.indices ≠ [i]) := by
  set ship := findShip imo with hship
  set cp := resolveConditioningParams co with hcp
  have hrpmval : (query_mock_api imo (some l) co jit).me_rpm[i]? =
      some ((querySample ship cp jit i (some s)).me_rpm) := by
    rw [query_me_rpm, List.getElem?_map, buildRows_getElem?]
    simp [hs]
  have hpowval : (query_mock_api imo (some l) co jit).me_power[i]? =
      some ((querySample ship cp jit i (some s)).me_power) := by
    rw [query_me_power, List.getElem?_map, buildRows_getElem?]
    simp [hs]
  have herr : (query_mock_api imo (some l) co jit).errors =
      ((buildRows ship cp jit 0 (((some l).getD DEFAULT_STW_RANGE))).map Row.errs).flatten :=
    query_errors imo (some l) co jit
  refine ⟨?_, ?_, ?_, ?_, ?_⟩
  · intro h
    constructor
    · rw [hrpmval, querySample_me_rpm ship cp jit i s brpm hbr, if_pos h]
    · rw [herr]
      refine buildRows_errs_mem_intro ship cp jit 0 i l (some s) _ hs ?_
      rw [Nat.zero_add, querySample_rpm_violation_iff]
      exact ⟨brpm, hbr, h⟩
  · intro h
    constructor
    · rw [hrpmval, querySample_me_rpm ship cp jit i s brpm hbr, if_neg (not_le.mpr h)]
    · intro hmem
      rw [herr] at hmem
      obtain ⟨j, sOpt, hj, hm⟩ := mem_buildRows_errs ship cp jit 0 l _ hmem
      rcases querySample_errs_mem ship cp jit (0 + j) sOpt _ hm with he | he
      · have hji : j = i := by
          have := congrArg LimitViolation.indices he
          simp at this
          omega
        subst hji
        rw [Nat.zero_add] at hm
        rw [hj] at hs
        have hsopt : sOpt = some s := by simpa using hs
        subst hsopt
        rw [querySample_rpm_violation_iff] at hm
        obtain ⟨b, hb, hge⟩ := hm
        rw [hbr] at hb
        have hbb : b = brpm := by simpa using hb.symm
        subst hbb
        exact absurd hge (not_le.mpr h)
      · have := congrArg LimitViolation.error_code he
        simp at this
  · intro h
    constructor
    · rw [hpowval, querySample_me_power ship cp jit i s bpow hbp, if_pos h]
    · rw [herr]
      refine buildRows_errs_mem_intro ship cp jit 0 i l (some s) _ hs ?_
      rw [Nat.zero_add, querySample_mcr_violation_iff]
      exact ⟨bpow, hbp, h⟩
  · intro h
    constructor
    · rw [hpowval, querySample_me_power ship cp jit i s bpow hbp, if_neg (not_le.mpr h)]
    · intro hmem
      rw [herr] at hmem
      obtain ⟨j, sOpt, hj, hm⟩ := mem_buildRows_errs ship cp jit 0 l _ hmem
      rcases querySample_errs_mem ship cp jit (0 + j) sOpt _ hm with he | he
      · have := congrArg LimitViolation.error_code he
        simp at this
      · have hji : j = i := by
          have := congrArg LimitViolation.indices he
          simp at this
          omega
        subst hji
        rw [Nat.zero_add] at hm
        rw [hj] at hs
        have hsopt : sOpt = some s := by simpa using hs
        subst hsopt
        rw [querySample_mcr_violation_iff] at hm
        obtain ⟨b, hb, hge⟩ := hm
        rw [hbp] at hb
        have hbb : b = bpow := by simpa using hb.symm
        subst hbb
        exact absurd hge (not_le.mpr h)
  · intro h1 h2 e hmem
    rw [herr] at hmem
    obtain ⟨j, sOpt, hj, hm⟩ := mem_buildRows_errs ship cp jit 0 l _ hmem
    intro hidx
    have hji : j = i := by
      rcases querySample_errs_mem ship cp jit (0 + j) sOpt _ hm with he | he <;>
        · subst he
          simp at hidx
          omega
    subst hji
    rw [Nat.zero_add] at hm
    rw [hj] at hs
    have hsopt : sOpt = some s := by simpa using hs
    subst hsopt
    rcases querySample_errs_mem ship cp jit _ (some s) _ hm with he | he
    · subst he
      rw [querySample_rpm_violation_iff] at hm
      obtain ⟨b, hb, hge⟩ := hm
      rw [hbr] at hb
      have hbb : b = brpm := by simpa using hb.symm
      subst hbb
      exact absurd hge (not_le.mpr h1)
    · subst he
      rw [querySample_mcr_violation_iff] at hm
      obtain ⟨b, hb, hge⟩ := hm
      rw [hbp] at hb
      have hbb : b = bpow := by simpa using hb.symm
      subst hbb
      exact absurd hge (not_le.mpr h2)

/-- C1 witness: with neutral conditioning (all factors 1) and jitter draws
of 2 for RPM and 5 for power, both limits trigger at index 0. -/
theorem c1_limit_checks_witness :
    (query_mock_api 9999999 (some [some (8.0 : ℝ)]) (some ovNeutral) jitBig).me_rpm[0]? =
      some (some (round5 ((findShip 9999999).max_rpm * 0.98))) ∧
    (⟨"max_rpm_limit_exceeded", [0]⟩ : LimitViolation) ∈
      (query_mock_api 9999999 (some [some (8.0 : ℝ)]) (some ovNeutral) jitBig).errors ∧
    (query_mock_api 9999999 (some [some (8.0 : ℝ)]) (some ovNeutral) jitBig).me_power[0]? =
      some (some (round2 ((findShip 9999999).mcr * 0.9))) ∧
    (⟨"max_mcr_limit_exceeded", [0]⟩ : LimitViolation) ∈
      (query_mock_api 9999999 (some [some (8.0 : ℝ)]) (some ovNeutral) jitBig).errors := by
  have h := c1_limit_checks 9999999 [some (8.0 : ℝ)] (some ovNeutral) jitBig 0 8.0
    35.563477161420984 4014.487664675082 rfl rfl rfl
  have hr : (35.563477161420984 : ℝ) *
      (calculate_environmental_effects (resolveConditioningParams (some ovNeutral))).rpm_factor
      * jitBig.rpm 0 ≥ (findShip 9999999).max_rpm := by
    rw [resolve_ovNeutral, calcEnv_cpNeutral, findShip_eq]
    norm_num [jitBig, demoVessel]
  have hp : (4014.487664675082 : ℝ) *
      (calculate_environmental_effects (resolveConditioningParams (some ovNeutral))).power_factor
      * jitBig.power 0 ≥ (findShip 9999999).mcr * 0.9 := by
    rw [resolve_ovNeutral, calcEnv_cpNeutral, findShip_eq]
    norm_num [jitBig, demoVessel]
  exact ⟨(h.1 hr).1, (h.1 hr).2, (h.2.2.1 hp).1, (h.2.2.1 hp).2⟩

/-- Sample-level RPM output bound: any real RPM output is at most
`max_rpm` plus the 5-decimal rounding slack, for any jitter draw. -/
theorem querySample_me_rpm_le (ship : Vessel) (cp : CondParams) (jit : Jitter)
    (i : ℕ) (sOpt : Option ℝ) (x : ℝ) (hmax : 0 ≤ ship.max_rpm)
    (hx : (querySample ship cp jit i sOpt).me_rpm = some x) :
    x ≤ ship.max_rpm + 1 / 200000 := by
  cases sOpt with
  | none => simp [querySample_none] at hx
  | some s =>
    cases hbase : baseAt me_rpm_base i with
    | none => rw [querySample_me_rpm_nobase ship cp jit i s hbase] at hx; simp at hx
    | some b =>
      rw [querySample_me_rpm ship cp jit i s b hbase] at hx
      split_ifs at hx with hcond
      · simp only [Option.some.injEq] at hx
        subst hx
        have h1 := round5_le_add (ship.max_rpm * 0.98)
        linarith
      · simp only [Option.some.injEq] at hx
        subst hx
        have h1 := round5_le_add
          (b * (calculate_environmental_effects cp).rpm_factor * jit.rpm i)
        have h2 := not_le.mp hcond
        linarith

/-- Sample-level power output bound: any real power output is at most
`mcr * 0.9` plus the 2-decimal rounding slack, for any jitter draw. -/
theorem querySample_me_power_le (ship : Vessel) (cp : CondParams) (jit : Jitter)
    (i : ℕ) (sOpt : Option ℝ) (x : ℝ)
    (hx : (querySample ship cp jit i sOpt).me_power = some x) :
    x ≤ ship.mcr * 0.9 + 1 / 200 := by
  cases sOpt with
  | none => simp [querySample_none] at hx
  | some s =>
    cases hbase : baseAt me_power_base i with
    | none => rw [querySample_me_power_nobase ship cp jit i s hbase] at hx; simp at hx
    | some b =>
      rw [querySample_me_power ship cp jit i s b hbase] at hx
      split_ifs at hx with hcond
      · simp only [Option.some.injEq] at hx
        subst hx
        have h1 := round2_le_add (ship.mcr * 0.9)
        linarith
      · simp only [Option.some.injEq] at hx
        subst hx
        have h1 := round2_le_add
          (b * (calculate_environmental_effects cp).power_factor * jit.power i)
        have h2 := not_le.mp hcond
        linarith

/-- C2 counterexample: with admissible jitter (RPM draw 1.02) and neutral
conditioning, the output RPM at index 6 is 59.15362, which exceeds
`max_rpm * 0.98 = 58.8` by far more than any rounding tolerance — the
claimed bound `output RPM ≤ max_rpm * 0.98 + ε` fails. -/
theorem c2_rpm_bound_counterexample :
    Jitter.Admissible jitTop ∧
    (query_mock_api 9999999 (some stwLast) (some ovNeutral) jitTop).me_rpm[6]? =
      some (some (59.15362 : ℝ)) ∧
    (59.15362 : ℝ) > (findShip 9999999).max_rpm * 0.98 + 0.1 := by
  refine ⟨?_, ?_, ?_⟩
  · refine ⟨fun i => ?_, fun i => ?_, fun i => ?_, fun i => ?_, fun i => ?_⟩ <;>
      norm_num [jitTop]
  · rw [query_me_rpm, resolve_ovNeutral, findShip_eq, List.getElem?_map,
      buildRows_getElem?]
    have hl : ((some stwLast).getD DEFAULT_STW_RANGE)[6]? = some (some (14.0 : ℝ)) := rfl
    rw [hl]
    simp only [Option.map_some', Nat.zero_add]
    rw [querySample_me_rpm demoVessel cpNeutral jitTop 6 14.0 57.993745359998364 rfl,
      calcEnv_cpNeutral]
    have hcond : ¬ ((57.993745359998364 : ℝ) *
        (⟨1, 1, 1.1, 1.1, 1⟩ : EnvFactors).rpm_factor * jitTop.rpm 6 ≥
        demoVessel.max_rpm) := by
      simp only [jitTop, demoVessel]
      norm_num
    rw [if_neg hcond]
    simp only [jitTop]
    norm_num [round5, round_eq, demoVessel]
  · rw [findShip_eq]
    norm_num [demoVessel]

/-- C2 (amended): for every input and admissible jitter, each real output
RPM is at most `max_rpm` plus the 5-decimal rounding slack (clipped entries
equal `round(max_rpm * 0.98, 5)`, unclipped ones stay below `max_rpm`), each
real output power is at most `mcr * 0.9` plus the 2-decimal rounding slack,
and whenever a raw computed value reaches its threshold a LimitViolation
naming that sample's index appears in the errors sequence. -/
theorem c2_output_bounds (imo : ℤ) (l : List (Option ℝ)) (co : Option CondOverride)
    (jit : Jitter) (hadm : jit.Admissible) :
    (∀ (i : ℕ) (x : ℝ), (query_mock_api imo (some l) co jit).me_rpm[i]? = some (some x) →
        x ≤ (findShip imo).max_rpm + 1 / 200000) ∧
    (∀ (i : ℕ) (x : ℝ), (query_mock_api imo (some l) co jit).me_power[i]? = some (some x) →
        x ≤ (findShip imo).mcr * 0.9 + 1 / 200) ∧
    (∀ (i : ℕ) (s b : ℝ), l[i]? = some (some s) → baseAt me_rpm_base i = some b →
        b * (calculate_environmental_effects (resolveConditioningParams co)).rpm_factor
          * jit.rpm i ≥ (findShip imo).max_rpm →
        (⟨"max_rpm_limit_exceeded", [i]⟩ : LimitViolation) ∈
          (query_mock_api imo (some l) co jit).errors) ∧
    (∀ (i : ℕ) (s b : ℝ), l[i]? = some (some s) → baseAt me_power_base i = some b →
        b * (calculate_environmental_effects (resolveConditioningParams co)).power_factor
          * jit.power i ≥ (findShip imo).mcr * 0.9 →
        (⟨"max_mcr_limit_exceeded", [i]⟩ : LimitViolation) ∈
          (query_mock_api imo (some l) co jit).errors) := by
  refine ⟨?_, ?_, ?_, ?_⟩
  · intro i x hx
    rw [query_me_rpm, List.getElem?_map, buildRows_getElem?] at hx
    cases hli : ((some l).getD DEFAULT_STW_RANGE)[i]? with
    | none => rw [hli] at hx; simp at hx
    | some sOpt =>
      rw [hli] at hx
      simp only [Option.map_some', Option.some.injEq] at hx
      have hmax : 0 ≤ (findShip imo).max_rpm := by
        rw [findShip_eq]; norm_num [demoVessel]
      exact querySample_me_rpm_le _ _ _ _ _ _ hmax hx
  · intro i x hx
    rw [query_me_power, List.getElem?_map, buildRows_getElem?] at hx
    cases hli : ((some l).getD DEFAULT_STW_RANGE)[i]? with
    | none => rw [hli] at hx; simp at hx
    | some sOpt =>
      rw [hli] at hx
      simp only [Option.map_some', Option.some.injEq] at hx
      exact querySample_me_power_le _ _ _ _ _ _ hx
  · intro i s b h1 h2 h3
    rw [query_errors]
    refine buildRows_errs_mem_intro _ _ _ 0 i l (some s) _ h1 ?_
    rw [Nat.zero_add, querySample_rpm_violation_iff]
    exact ⟨b, h2, h3⟩
  · intro i s b h1 h2 h3
    rw [query_errors]
    refine buildRows_errs_mem_intro _ _ _ 0 i l (some s) _ h1 ?_
    rw [Nat.zero_add, querySample_mcr_violation_iff]
    exact ⟨b, h2, h3⟩

/-- C2 witness: the constant jitter 1 is admissible and the bound holds at
a concrete output value. -/
theorem c2_output_bounds_witness :
    Jitter.Admissible jitOne ∧
    (35.56348 : ℝ) ≤ (findShip 9999999).max_rpm + 1 / 200000 := by
  have hadm : Jitter.Admissible jitOne := by
    refine ⟨fun i => ?_, fun i => ?_, fun i => ?_, fun i => ?_, fun i => ?_⟩ <;>
      norm_num [jitOne]
  have h := c2_output_bounds 9999999 [some (8.0 : ℝ)] (some ovNeutral) jitOne hadm
  refine ⟨hadm, h.1 0 35.56348 ?_⟩
  rw [query_me_rpm, resolve_ovNeutral, findShip_eq, List.getElem?_map,
    buildRows_getElem?]
  have hl : ((some [some (8.0 : ℝ)]).getD DEFAULT_STW_RANGE)[0]? =
      some (some (8.0 : ℝ)) := rfl
  rw [hl]
  simp only [Option.map_some', Nat.zero_add]
  rw [querySample_me_rpm demoVessel cpNeutral jitOne 0 8.0 35.563477161420984 rfl,
    calcEnv_cpNeutral]
  have hcond : ¬ ((35.563477161420984 : ℝ) *
      (⟨1, 1, 1.1, 1.1, 1⟩ : EnvFactors).rpm_factor * jitOne.rpm 0 ≥
      demoVessel.max_rpm) := by
    simp only [jitOne, demoVessel]
    norm_num
  rw [if_neg hcond]
  simp only [jitOne]
  norm_num [round5, round_eq]

/-- C10: every recorded violation names exactly one index, namely the index
of the sample whose check triggered it — that index holds a real sample and
a base value whose computed metric reached the corresponding threshold —
and carries the matching limit code; the errors sequence is ordered by
nondecreasing affected index; and per index there is at most one RPM
violation and at most one power violation. -/
theorem c10_errors_invariants (imo : ℤ) (sr : Option (List (Option ℝ)))
    (co : Option CondOverride) (jit : Jitter) :
    (∀ e ∈ (query_mock_api imo sr co jit).errors,
      ∃ i, e.indices = [i] ∧
        ((e.error_code = "max_rpm_limit_exceeded" ∧
          ∃ s b, (sr.getD DEFAULT_STW_RANGE)[i]? = some (some s) ∧
            baseAt me_rpm_base i = some b ∧
            b * (calculate_environmental_effects (resolveConditioningParams co)).rpm_factor
              * jit.rpm i ≥ (findShip imo).max_rpm) ∨
         (e.error_code = "max_mcr_limit_exceeded" ∧
          ∃ s b, (sr.getD DEFAULT_STW_RANGE)[i]? = some (some s) ∧
            baseAt me_power_base i = some b ∧
            b * (calculate_environmental_effects (resolveConditioningParams co)).power_factor
              * jit.power i ≥ (findShip imo).mcr * 0.9))) ∧
    ((query_mock_api imo sr co jit).errors).Pairwise
      (fun a b => a.indices.headD 0 ≤ b.indices.headD 0) ∧
    (∀ i : ℕ, ((query_mock_api imo sr co jit).errors).countP
        (fun e => pCode "max_rpm_limit_exceeded" i e) ≤ 1) ∧
    (∀ i : ℕ, ((query_mock_api imo sr co jit).errors).countP
        (fun e => pCode "max_mcr_limit_exceeded" i e) ≤ 1) := by
  rw [query_errors]
  refine ⟨?_, buildRows_errs_sorted _ _ _ 0 _,
    fun i => buildRows_errs_countP_le _ _ _ _ (Or.inl rfl) 0 i _,
    fun i => buildRows_errs_countP_le _ _ _ _ (Or.inr rfl) 0 i _⟩
  intro e he
  obtain ⟨j, sOpt, hj, hm⟩ := mem_buildRows_errs _ _ _ 0 _ e he
  cases sOpt with
  | none => simp [querySample_none] at hm
  | some s =>
    rcases querySample_errs_mem _ _ _ _ _ _ hm with rfl | rfl
    · rw [querySample_rpm_violation_iff] at hm
      obtain ⟨b, hb, hge⟩ := hm
      exact ⟨0 + j, rfl, Or.inl ⟨rfl, s, b, by simpa using hj, hb, hge⟩⟩
    · rw [querySample_mcr_violation_iff] at hm
      obtain ⟨b, hb, hge⟩ := hm
      exact ⟨0 + j, rfl, Or.inr ⟨rfl, s, b, by simpa using hj, hb, hge⟩⟩

/-- C10 witness: the invariants applied to a violation actually present in
a concrete errors sequence, recovering the triggering sample and threshold
condition at its index. -/
theorem c10_errors_invariants_witness :
    ∃ i, (⟨"max_rpm_limit_exceeded", [0]⟩ : LimitViolation).indices = [i] ∧
      (((⟨"max_rpm_limit_exceeded", [0]⟩ : LimitViolation).error_code =
          "max_rpm_limit_exceeded" ∧
        ∃ s b, ((some [some (8.0 : ℝ)]).getD DEFAULT_STW_RANGE)[i]? = some (some s) ∧
          baseAt me_rpm_base i = some b ∧
          b * (calculate_environmental_effects
              (resolveConditioningParams (some ovNeutral))).rpm_factor
            * jitBig.rpm i ≥ (findShip 9999999).max_rpm) ∨
       ((⟨"max_rpm_limit_exceeded", [0]⟩ : LimitViolation).error_code =
          "max_mcr_limit_exceeded" ∧
        ∃ s b, ((some [some (8.0 : ℝ)]).getD DEFAULT_STW_RANGE)[i]? = some (some s) ∧
          baseAt me_power_base i = some b ∧
          b * (calculate_environmental_effects
              (resolveConditioningParams (some ovNeutral))).power_factor
            * jitBig.power i ≥ (findShip 9999999).mcr * 0.9)) := by
  have h := c10_errors_invariants 9999999 (some [some (8.0 : ℝ)]) (some ovNeutral) jitBig
  refine h.1 ⟨"max_rpm_limit_exceeded", [0]⟩ ?_
  rw [query_errors]
  refine buildRows_errs_mem_intro _ _ _ 0 0 _ (some 8.0) _ rfl ?_
  rw [Nat.zero_add, querySample_rpm_violation_iff]
  refine ⟨35.563477161420984, rfl, ?_⟩
  rw [resolve_ovNeutral, calcEnv_cpNeutral, findShip_eq]
  norm_num [jitBig, demoVessel]

/-- C9 counterexample: with `mean_draft = -120` (and neutral wind, wave and
trim) the combined power factor is `-0.4`; Python's `(-0.4) ** 0.8` is a
complex number with nonzero imaginary part, so the returned `rpm_factor` is
not a real value. -/
theorem c9_complex_rpm_counterexample :
    power_factor cpNegDraft = -0.4 ∧
    ((calculate_environmental_effects_pyPow cpNegDraft).rpm_factor).im ≠ 0 := by
  have hpf : power_factor cpNegDraft = -0.4 := by
    have hw : wind_factor cpNegDraft = 1 := by
      simp only [wind_factor, relative_wind_angle, cpNegDraft]
      norm_num
    unfold power_factor
    rw [hw]
    simp only [wave_factor, draft_factor, trim_factor, cpNegDraft]
    norm_num
  refine ⟨hpf, ?_⟩
  show (pyFloatPow (power_factor cpNegDraft) 0.8).im ≠ 0
  rw [hpf]
  unfold pyFloatPow
  rw [if_neg (by norm_num)]
  rw [Complex.cpow_def_of_ne_zero (by
    rw [Ne, Complex.ofReal_eq_zero]
    norm_num)]
  rw [Complex.exp_im]
  have harg : ((-0.4 : ℝ) : ℂ).arg = Real.pi :=
    Complex.arg_ofReal_of_neg (by norm_num)
  have him : (Complex.log ((-0.4 : ℝ) : ℂ) * ((0.8 : ℝ) : ℂ)).im = Real.pi * 0.8 := by
    rw [Complex.mul_im, Complex.log_im, harg, Complex.ofReal_im, Complex.ofReal_re]
    ring
  rw [him]
  have hsin : 0 < Real.sin (Real.pi * 0.8) := by
    apply Real.sin_pos_of_pos_of_lt_pi
    · positivity
    · nlinarith [Real.pi_pos]
  exact (mul_pos (Real.exp_pos _) hsin).ne'

/-- C9 (amended): `calculate_environmental_effects` is total — it returns
all five factors for every real parameter assignment without raising — and
whenever the combined power factor is nonnegative all five factors,
`rpm_factor` included, are real numbers; for a negative power factor the
`rpm_factor` is a non-real complex number. -/
theorem c9_total_factors (cp : CondParams) (h : 0 ≤ power_factor cp) :
    calculate_environmental_effects_pyPow cp =
      ⟨current_sog_factor cp, power_factor cp, power_factor cp * 1.1,
       power_factor cp * 1.1, ((power_factor cp ^ (0.8 : ℝ) : ℝ) : ℂ)⟩ ∧
    ((calculate_environmental_effects_pyPow cp).rpm_factor).im = 0 := by
  have hpy : pyFloatPow (power_factor cp) 0.8 =
      ((power_factor cp ^ (0.8 : ℝ) : ℝ) : ℂ) := by
    unfold pyFloatPow
    rw [if_pos h]
  constructor
  · unfold calculate_environmental_effects_pyPow
    rw [hpy]
  · show (pyFloatPow (power_factor cp) 0.8).im = 0
    rw [hpy, Complex.ofReal_im]

/-- C9 witness: the neutral parameters have power factor 1 ≥ 0, so all five
factors are real there. -/
theorem c9_total_factors_witness :
    calculate_environmental_effects_pyPow cpNeutral =
      ⟨current_sog_factor cpNeutral, power_factor cpNeutral,
       power_factor cpNeutral * 1.1, power_factor cpNeutral * 1.1,
       ((power_factor cpNeutral ^ (0.8 : ℝ) : ℝ) : ℂ)⟩ ∧
    ((calculate_environmental_effects_pyPow cpNeutral).rpm_factor).im = 0 :=
  c9_total_factors cpNeutral (by rw [power_factor_cpNeutral]; norm_num)

end MockApi

end
